import Mathlib

/-!
Shallow embedding of the build-orchestration core of the repository
(`src/lib.rs`).  The embedding covers the pure logic of `do_build_wasm`,
`all_module_files` and `build_wasm`: the feature-flag encoder (the
`Display` impl for `TargetFeatures`), the output-directory derivation,
the child-process environment construction, the configuration checks,
the command-line argument list, and the glob-based artifact resolution.

Filesystem and process effects are represented by an explicit `World`
oracle (is-file tests, file reads, process runs, glob listings); the
function `doBuildWasm` threads the configuration through exactly the
branches of the Rust source and additionally records the list of
toolchain invocations it performed, so that claims of the form
"no process invocation is performed" become statements about that list.
-/

/-- Recognised target features (src/lib.rs lines 13-18).  The set is
closed: the front-end parser rejects any other name. -/
structure TargetFeatures where
  atomics : Bool
  bulk_memory : Bool
  mutable_globals : Bool
deriving DecidableEq

/-- Embeds the `Display` impl for `TargetFeatures` (src/lib.rs lines
230-244): three conditional `write!` calls appending to the formatter
accumulator, in the order atomics, bulk-memory, mutable-globals.
Writing to a string buffer cannot fail, so the embedding is a total
function on the accumulator. -/
def TargetFeatures.fmtOn (f : TargetFeatures) (acc : String) : String :=
  let acc := if f.atomics then acc ++ "+atomics," else acc
  let acc := if f.bulk_memory then acc ++ "+bulk-memory," else acc
  let acc := if f.mutable_globals then acc ++ "+mutable-globals," else acc
  acc

/-- The string produced for `format!("{features}")`: rendering onto an
empty accumulator. -/
def TargetFeatures.render (f : TargetFeatures) : String :=
  f.fmtOn ""

/-- The validated configuration record (src/lib.rs lines 58-64).
Paths are modelled as strings. -/
structure Args where
  module_dir : String
  features : TargetFeatures
  env_vars : List (String × String)
  release : Bool

/-- Last character of a character list, if any. -/
def lastChar? : List Char → Option Char
  | [] => none
  | [c] => some c
  | _ :: c :: cs => lastChar? (c :: cs)

/-- Whether a path string ends in the separator character. -/
def endsWithSlash (s : String) : Bool :=
  match lastChar? s.data with
  | some c => c == '/'
  | none => false

/-- Models `PathBuf::join` / `PathBuf::push` for the nonempty relative
components used by the source: a separator is inserted unless the base
already ends in one. -/
def pathJoin (base p : String) : String :=
  if endsWithSlash base then base ++ p else base ++ "/" ++ p

/-- Embeds the output-directory derivation (src/lib.rs lines 282-286):
starting from `"target/"`, the loop appends `format!("{}_{}", key, val)`
for every environment override, in input order. -/
def deriveTargetDir (env_vars : List (String × String)) : String :=
  env_vars.foldl (fun acc kv => acc ++ (kv.1 ++ "_" ++ kv.2)) "target/"

/-- Modelled from the spec: the sentence "a relative directory name
formed by concatenating, in input order, a name/value token for every
override" (amended to the token the source actually appends, namely
`name + "_" + value` with no separator before the name).  Used only to
compare the source-derived `deriveTargetDir` against the spec-side
formulation. -/
def specTargetDirSuffix : List (String × String) → String
  | [] => ""
  | kv :: t => (kv.1 ++ "_" ++ kv.2) ++ specTargetDirSuffix t

/-- The reserved environment-variable name (src/lib.rs line 292). -/
def RUSTFLAGS : String := "RUSTFLAGS"

/-- The seeded flags value (src/lib.rs line 293): the experimental
platform-APIs flag and the target-feature flag built from the feature
encoder output. -/
def seedRustflags (features : TargetFeatures) : String :=
  "--cfg=web_sys_unstable_apis -C target-feature=" ++ features.render

/-- The explicit environment of the child process, as a partial map
from variable names to values (`Command::env` overwrite semantics). -/
def EnvMap : Type :=
  String → Option String

/-- Setting one variable in the child-process environment:
`Command::env` overwrites any earlier value for the same name. -/
def envInsert (e : EnvMap) (k v : String) : EnvMap :=
  fun q => if q == k then some v else e q

/-- One iteration of the env-override loop (src/lib.rs lines 296-304):
an override named `RUSTFLAGS` is appended, space separated, onto the
accumulated flags value, which is then re-set in the environment; any
other override is set directly.  The state is the environment so far
together with the accumulated `rustflags_value`. -/
def envStep (st : EnvMap × String) (kv : String × String) : EnvMap × String :=
  if kv.1 == RUSTFLAGS then
    let rv := st.2 ++ " " ++ kv.2
    (envInsert st.1 RUSTFLAGS rv, rv)
  else
    (envInsert st.1 kv.1 kv.2, st.2)

/-- The full child-process environment construction (src/lib.rs lines
291-304): seed `RUSTFLAGS`, then fold the override loop over the
configuration's `env_vars` in order. -/
def applyEnvVars (env_vars : List (String × String)) (features : TargetFeatures) : EnvMap :=
  let seed := seedRustflags features
  (env_vars.foldl envStep (envInsert (fun _ => none) RUSTFLAGS seed, seed)).1

/-- The value of the last override in the list carrying the given name,
if any: later entries take priority. -/
def lastValue (k : String) : List (String × String) → Option String
  | [] => none
  | kv :: t =>
    match lastValue k t with
    | some v => some v
    | none => if kv.1 == k then some kv.2 else none

/-- The argument list handed to the `cargo` child process (src/lib.rs
lines 307-319): fixed toolchain arguments, the derived target
directory, and `--release` exactly when the release flag is set. -/
def buildCmdArgs (a : Args) : List String :=
  ["+nightly", "build", "--target", "wasm32-unknown-unknown", "-Z",
    "build-std=panic_abort,std", "--target-dir", deriveTargetDir a.env_vars] ++
    (if a.release then ["--release"] else [])

/-- One recorded child-process invocation: command-line arguments,
explicit environment, and working directory. -/
structure Invocation where
  cmdArgs : List String
  env : EnvMap
  cwd : String

/-- The single toolchain invocation `do_build_wasm` can make, assembled
from the configuration (src/lib.rs lines 288-320). -/
def mkInvocation (a : Args) : Invocation :=
  { cmdArgs := buildCmdArgs a
    env := applyEnvVars a.env_vars a.features
    cwd := a.module_dir }

/-- The expected artifact tree root (src/lib.rs line 341):
`module_dir.join(target_dir).join("wasm32-unknown-unknown/")`. -/
def rootOutputPath (a : Args) : String :=
  pathJoin (pathJoin a.module_dir (deriveTargetDir a.env_vars)) "wasm32-unknown-unknown/"

/-- The artifact glob pattern (src/lib.rs lines 342-347): the
`release/` or `debug/` subdirectory of the output root, depending on
the release flag, joined with `*.wasm`. -/
def artifactGlobPat (a : Args) : String :=
  pathJoin
    (if a.release then pathJoin (rootOutputPath a) "release/"
      else pathJoin (rootOutputPath a) "debug/")
    "*.wasm"

/-- The path to the build descriptor (src/lib.rs line 266):
`module_dir.join("Cargo.toml")`. -/
def cargoCfgPath (a : Args) : String :=
  pathJoin a.module_dir "Cargo.toml"

/-- The workspace-declaration marker the source searches for in the
descriptor contents (src/lib.rs line 275). -/
def workspaceMarker : String := "[workspace]\n"

/-- Byte-for-byte prefix test on character lists. -/
def charsPrefixOf : List Char → List Char → Bool
  | [], _ => true
  | _ :: _, [] => false
  | a :: as, b :: bs => a == b && charsPrefixOf as bs

/-- Substring containment on character lists: the pattern is a prefix
of some suffix. -/
def charsContains (pat : List Char) : List Char → Bool
  | [] => charsPrefixOf pat []
  | c :: cs => charsPrefixOf pat (c :: cs) || charsContains pat cs

/-- Models Rust `str::contains` for a string pattern. -/
def strContains (s pat : String) : Bool :=
  charsContains pat.data s.data

/-- Models `String::replace(s, "\n", "\n\t")` on the character list:
the pattern is the single newline character, replaced by a newline and
a tab (src/lib.rs line 328). -/
def replaceNewlineChars : List Char → List Char
  | [] => []
  | c :: cs =>
    if c == '\n' then '\n' :: '\t' :: replaceNewlineChars cs
    else c :: replaceNewlineChars cs

/-- Re-indents embedded newlines of captured stderr text. -/
def indentNewlines (s : String) : String :=
  String.mk (replaceNewlineChars s.data)

/-- Error message for a module root without a `Cargo.toml`
(src/lib.rs lines 268-271). -/
def noCargoTomlMsg (a : Args) : String :=
  "target directory `" ++ a.module_dir ++ "` does not contain a `Cargo.toml` file"

/-- Error message for an unreadable `Cargo.toml` (src/lib.rs line 279). -/
def readFailMsg (e : String) : String :=
  "failed to read target `Cargo.toml`: " ++ e

/-- Error message for a workspace descriptor (src/lib.rs line 276). -/
def workspaceMsg : String :=
  "provided directory points to a workspace, not a module"

/-- Error message for a toolchain process that could not be spawned
(src/lib.rs lines 332-337). -/
def spawnFailMsg (a : Args) (e : String) : String :=
  "failed to build module `" ++ a.module_dir ++ "`: " ++ e

/-- Error message for a toolchain process that exited non-zero
(src/lib.rs lines 324-329). -/
def buildFailMsg (a : Args) (stderrTxt : String) : String :=
  "failed to build module `" ++ a.module_dir ++ "`: \n" ++ indentNewlines stderrTxt

/-- Debug formatting of a path (`{:?}`) quotes it. -/
def debugQuote (s : String) : String :=
  "\"" ++ s ++ "\""

/-- Error message when the artifact glob yields no entry
(src/lib.rs lines 363-368). -/
def noOutputMsg (pat : String) : String :=
  "failed to find output file matching `" ++ pat ++ "` - this is probably a bug"

/-- Error message when the first glob entry is an error
(src/lib.rs lines 358-362). -/
def globErrMsg (pat err : String) : String :=
  "failed to find output file matching `" ++ debugQuote pat ++ "`: " ++ err ++
    " - this is probably a bug"

/-- Error message when a second glob entry resolves successfully
(src/lib.rs lines 372-374). -/
def multipleOutputsMsg (pat root : String) : String :=
  "multiple output files matching `" ++ pat ++
    "` were found - this may be because you recently changed the name of your module; try deleting the folder `" ++
    root ++ "` and rebuilding"

/-- Embeds the artifact-resolution tail of `do_build_wasm`
(src/lib.rs lines 356-378).  The list holds the entries yielded by the
glob iterator, each either a resolved path or a read error.  The first
`next()` call: no entry is the no-output error, an error entry is the
glob-error case, an ok entry is the candidate artifact.  The second
`next()` call is inspected with `if let Some(Ok(_))`: only a second
successfully-resolved entry triggers the multiple-outputs error. -/
def resolveArtifact (entries : List (Except String String)) (pat root : String) :
    Except String String :=
  match entries with
  | [] => Except.error (noOutputMsg pat)
  | Except.error err :: _ => Except.error (globErrMsg pat err)
  | Except.ok out :: rest =>
    match rest with
    | Except.ok _ :: _ => Except.error (multipleOutputsMsg pat root)
    | _ => Except.ok out

/-- The effect oracle standing for the filesystem and the process
runner: is-file tests, whole-file reads, child-process runs (spawn
error, or exit-status flag and captured stderr), and glob listings. -/
structure World where
  isFile : String → Bool
  readFile : String → Except String String
  run : Invocation → Except String (Bool × String)
  glob : String → List (Except String String)

/-- Embeds `do_build_wasm` (src/lib.rs lines 250-379), minus the
global lock, which guards no data read by this function.  Returns the
build outcome together with the list of toolchain invocations
performed, in order.  The branch structure follows the source: missing
descriptor, unreadable descriptor and workspace descriptor fail before
any invocation; a spawn error or non-zero exit fails after the single
invocation; otherwise the artifact is resolved from the glob entries of
the derived pattern. -/
def doBuildWasm (a : Args) (w : World) : Except String String × List Invocation :=
  if w.isFile (cargoCfgPath a) = false then
    (Except.error (noCargoTomlMsg a), [])
  else
    match w.readFile (cargoCfgPath a) with
    | Except.error e => (Except.error (readFailMsg e), [])
    | Except.ok cfg =>
      if strContains cfg workspaceMarker then
        (Except.error workspaceMsg, [])
      else
        match w.run (mkInvocation a) with
        | Except.error e => (Except.error (spawnFailMsg a e), [mkInvocation a])
        | Except.ok (success, stderrTxt) =>
          if success = false then
            (Except.error (buildFailMsg a stderrTxt), [mkInvocation a])
          else
            (resolveArtifact (w.glob (artifactGlobPat a)) (artifactGlobPat a)
              (rootOutputPath a), [mkInvocation a])

/-- Embeds `all_module_files` (src/lib.rs lines 381-401): glob the
given pattern, drop error entries (`path.ok()?`), keep only regular
files. -/
def allModuleFiles (w : World) (path : String) : List String :=
  (w.glob path).filterMap fun e =>
    match e with
    | Except.error _ => none
    | Except.ok p => if w.isFile p then some p else none

/-- Embeds the orchestration tail of `build_wasm` (src/lib.rs lines
449-474): run the build; on success return the artifact path together
with the watch list computed by `all_module_files(args.module_dir)` —
note the source passes the module directory itself as the glob
pattern; on failure propagate the error (rendered as a
`compile_error!`). -/
def build_wasm (a : Args) (w : World) : Except String (String × List String) :=
  match (doBuildWasm a w).1 with
  | Except.ok bytesPath => Except.ok (bytesPath, allModuleFiles w a.module_dir)
  | Except.error e => Except.error e

/-- Fuel-bounded glob matching over character lists, mirroring the
`glob` crate's semantics for the patterns the source builds: `*`
matches any run of non-separator characters, every other character
matches itself.  The fuel dominates the sum of the lengths, so the
bound never bites on the initial call. -/
def globMatchAux : Nat → List Char → List Char → Bool
  | 0, _, _ => false
  | fuel + 1, pat, s =>
    match pat, s with
    | [], [] => true
    | [], _ :: _ => false
    | '*' :: ps, t =>
      globMatchAux fuel ps t ||
        (match t with
          | [] => false
          | c :: cs => decide (c ≠ '/') && globMatchAux fuel ('*' :: ps) cs)
    | p :: ps, [] =>
      match p, ps with
      | _, _ => false
    | p :: ps, c :: cs => p == c && globMatchAux fuel ps cs

/-- Whether a concrete path matches a glob pattern. -/
def globMatch (pat path : String) : Bool :=
  globMatchAux (pat.length + path.length + 1) pat.data path.data

/-- Models `glob::glob` over a finite filesystem listing: the entries
matching the pattern, all successfully resolved. -/
def fsGlob (entries : List String) (pat : String) : List (Except String String) :=
  (entries.filter fun p => globMatch pat p).map Except.ok

/-- Concrete configuration used by witnesses: module root `m`, no
features, no overrides, debug build. -/
def aDbg : Args :=
  { module_dir := "m"
    features := { atomics := false, bulk_memory := false, mutable_globals := false }
    env_vars := []
    release := false }

/-- Concrete configuration with the release flag set. -/
def aRel : Args :=
  { aDbg with release := true }

/-- A world without any build descriptor. -/
def wNoToml : World :=
  { isFile := fun _ => false
    readFile := fun _ => Except.error "missing"
    run := fun _ => Except.error "unused"
    glob := fun _ => [] }

/-- A world whose toolchain run succeeds and whose artifact glob
yields exactly one resolved entry. -/
def wOneArtifact : World :=
  { isFile := fun _ => true
    readFile := fun _ => Except.ok "[package]"
    run := fun _ => Except.ok (true, "")
    glob := fun _ => [Except.ok "m/target/wasm32-unknown-unknown/debug/module.wasm"] }

/-- Regular files of the concrete filesystem used to exercise the
watch-list enumeration: a descriptor, one source file and the built
artifact, all under module root `m`. -/
def fsFiles : List String :=
  ["m/Cargo.toml", "m/src/lib.rs", "m/target/wasm32-unknown-unknown/debug/module.wasm"]

/-- All filesystem entries (directories included) of that filesystem. -/
def fsEntries : List String :=
  ["m", "m/Cargo.toml", "m/src", "m/src/lib.rs", "m/target",
    "m/target/wasm32-unknown-unknown", "m/target/wasm32-unknown-unknown/debug",
    "m/target/wasm32-unknown-unknown/debug/module.wasm"]

/-- The world backed by that filesystem listing, with a successful
toolchain run and glob semantics given by `fsGlob`. -/
def wFs : World :=
  { isFile := fun p => fsFiles.contains p
    readFile := fun p =>
      if p == "m/Cargo.toml" then Except.ok "[package]\nname = \"m\"\n"
      else Except.error "No such file"
    run := fun _ => Except.ok (true, "")
    glob := fsGlob fsEntries }

/-- The flags suffix contributed by the override walk: one space plus
the override value for every override named `RUSTFLAGS`, in input
order, nothing for other overrides.  This is the spec's
"append its value (space-separated)" formulation, used to state
what the loop accumulates. -/
def rustflagsSuffix : List (String × String) → String
  | [] => ""
  | kv :: t => (if kv.1 == RUSTFLAGS then " " ++ kv.2 else "") ++ rustflagsSuffix t

theorem str_append_assoc (a b c : String) : a ++ b ++ c = a ++ (b ++ c) := by
  rcases a with ⟨as⟩
  rcases b with ⟨bs⟩
  rcases c with ⟨cs⟩
  show String.mk (as ++ bs ++ cs) = String.mk (as ++ (bs ++ cs))
  rw [List.append_assoc]

theorem str_append_right_nil (a : String) : a ++ "" = a := by
  rcases a with ⟨as⟩
  show String.mk (as ++ []) = String.mk as
  rw [List.append_nil]

theorem str_append_left_cancel {a x y : String} : a ++ x = a ++ y ↔ x = y := by
  rcases a with ⟨as⟩
  rcases x with ⟨xs⟩
  rcases y with ⟨ys⟩
  constructor
  · intro h
    have h' : as ++ xs = as ++ ys := congrArg String.data h
    exact congrArg String.mk (List.append_cancel_left h')
  · intro h
    rw [h]

theorem foldl_dir_append (evs : List (String × String)) :
    ∀ s : String,
      evs.foldl (fun acc kv => acc ++ (kv.1 ++ "_" ++ kv.2)) s = s ++ specTargetDirSuffix evs := by
  induction evs with
  | nil =>
    intro s
    simp [specTargetDirSuffix, str_append_right_nil]
  | cons kv t ih =>
    intro s
    show t.foldl (fun acc kv => acc ++ (kv.1 ++ "_" ++ kv.2)) (s ++ (kv.1 ++ "_" ++ kv.2)) =
      s ++ specTargetDirSuffix (kv :: t)
    rw [ih, specTargetDirSuffix, str_append_assoc]

theorem deriveTargetDir_eq (evs : List (String × String)) :
    deriveTargetDir evs = "target/" ++ specTargetDirSuffix evs :=
  foldl_dir_append evs "target/"

theorem env_fold_rustflags (evs : List (String × String)) :
    ∀ st : EnvMap × String, st.1 RUSTFLAGS = some st.2 →
      (evs.foldl envStep st).1 RUSTFLAGS = some (st.2 ++ rustflagsSuffix evs) := by
  induction evs with
  | nil =>
    intro st h
    simpa [rustflagsSuffix, str_append_right_nil] using h
  | cons kv t ih =>
    intro st h
    show (t.foldl envStep (envStep st kv)).1 RUSTFLAGS = _
    cases hk : kv.1 == RUSTFLAGS with
    | true =>
      have h' : (envStep st kv).1 RUSTFLAGS = some (envStep st kv).2 := by
        simp [envStep, hk, envInsert]
      rw [ih (envStep st kv) h']
      simp only [envStep, hk, if_true]
      rw [rustflagsSuffix]
      rw [hk]
      simp only [if_true]
      rw [str_append_assoc st.2 " " kv.2, str_append_assoc]
    | false =>
      have hne : (RUSTFLAGS == kv.1) = false := by
        rw [beq_eq_false_iff_ne] at hk ⊢
        exact fun hcontra => hk hcontra.symm
      have h' : (envStep st kv).1 RUSTFLAGS = some (envStep st kv).2 := by
        simp only [envStep, hk]
        show envInsert st.1 kv.1 kv.2 RUSTFLAGS = some st.2
        simp only [envInsert, hne]
        simpa using h
      rw [ih (envStep st kv) h']
      simp only [envStep, hk]
      rw [rustflagsSuffix, hk]
      simp

/-- C4: the reserved flags variable handed to the child process is
seeded with the platform-APIs flag and the target-feature flag built
from the feature encoder, and every `RUSTFLAGS`-named override only
appends its value, space separated, after that seed: the final
environment value is exactly the seed followed by the accumulated
suffix, so the seeded flags are always preserved as its prefix. -/
theorem rustflags_env_preserves_seed (evs : List (String × String)) (f : TargetFeatures) :
    applyEnvVars evs f RUSTFLAGS = some (seedRustflags f ++ rustflagsSuffix evs) := by
  unfold applyEnvVars
  exact env_fold_rustflags evs _ (by simp [envInsert])

theorem env_fold_other (k : String) (hk : k ≠ RUSTFLAGS) (evs : List (String × String)) :
    ∀ st : EnvMap × String,
      (evs.foldl envStep st).1 k =
        match lastValue k evs with
        | some v => some v
        | none => st.1 k := by
  induction evs with
  | nil =>
    intro st
    simp [lastValue]
  | cons kv t ih =>
    intro st
    show (t.foldl envStep (envStep st kv)).1 k = _
    rw [ih (envStep st kv)]
    cases hlast : lastValue k t with
    | some v =>
      simp [lastValue, hlast]
    | none =>
      simp only [lastValue, hlast]
      cases hkv : kv.1 == RUSTFLAGS with
      | true =>
        have hkk : (kv.1 == k) = false := by
          rw [beq_eq_false_iff_ne]
          intro hcontra
          rw [beq_iff_eq] at hkv
          exact hk (hcontra ▸ hkv)
        have hkk' : (k == RUSTFLAGS) = false := by
          rw [beq_eq_false_iff_ne]
          exact hk
        simp only [envStep, hkv, if_true, hkk, if_false]
        show envInsert st.1 RUSTFLAGS _ k = st.1 k
        simp [envInsert, hkk']
      | false =>
        simp only [envStep, hkv, if_false]
        show envInsert st.1 kv.1 kv.2 k = _
        cases hq : kv.1 == k with
        | true =>
          have : (k == kv.1) = true := by
            rw [beq_iff_eq] at hq ⊢
            exact hq.symm
          simp [envInsert, this]
        | false =>
          have : (k == kv.1) = false := by
            rw [beq_eq_false_iff_ne] at hq ⊢
            exact fun hcontra => hq hcontra.symm
          simp [envInsert, this]

/-- C9: for a non-reserved variable name, the child-process
environment carries exactly the value of the last override with that
name (or nothing when no override names it): the override loop sets
such variables with plain overwrite semantics, so repeated names do
not accumulate — accumulation is reserved to `RUSTFLAGS`. -/
theorem env_nonreserved_last_wins (evs : List (String × String)) (f : TargetFeatures)
    (k : String) (hk : k ≠ RUSTFLAGS) :
    applyEnvVars evs f k = lastValue k evs := by
  unfold applyEnvVars
  rw [env_fold_other k hk evs]
  cases hlast : lastValue k evs with
  | some v => rfl
  | none =>
    have hkk : (k == RUSTFLAGS) = false := by
      rw [beq_eq_false_iff_ne]
      exact hk
    simp [envInsert, hkk]

/-- Witness for C9: with two overrides both named `FOO`, the final
environment holds the second value, `some "2"`. -/
theorem env_nonreserved_last_wins_witness :
    ( "FOO" ≠ RUSTFLAGS) ∧
      applyEnvVars [( "FOO", "1"), ( "FOO", "2")] ⟨false, false, false⟩ "FOO" =
        lastValue "FOO" [( "FOO", "1"), ( "FOO", "2")] ∧
      lastValue "FOO" [( "FOO", "1"), ( "FOO", "2")] = some "2" :=
  ⟨by decide, env_nonreserved_last_wins _ _ _ (by decide), by decide⟩

/-- C3: the feature encoder emits, in the canonical order atomics,
bulk-memory, mutable-globals, exactly the token of each enabled
feature and nothing else; it is a total (pure, never-failing) function
of the feature set. -/
theorem targetFeatures_render_canonical (f : TargetFeatures) :
    f.render =
      (if f.atomics then "+atomics," else "") ++
        (if f.bulk_memory then "+bulk-memory," else "") ++
        (if f.mutable_globals then "+mutable-globals," else "") := by
  rcases f with ⟨a, b, m⟩
  cases a <;> cases b <;> cases m <;> decide

/-- Counterexample to C1: two override sequences that are reorderings
of each other (hence differ as sequences) derive the same output
directory, because the `name_value` encoding concatenates without a
separator in front of the name. -/
theorem derive_dir_order_collision :
    deriveTargetDir [( "a", "a_a"), ( "a_a", "a")] =
        deriveTargetDir [( "a_a", "a"), ( "a", "a_a")] ∧
      ([( "a", "a_a"), ( "a_a", "a")] : List (String × String)) ≠
        [( "a_a", "a"), ( "a", "a_a")] := by
  constructor
  · decide
  · decide

/-- C1 (amended): derived output directories coincide exactly when the
concatenated `name_value` encodings coincide; identical sequences thus
give identical directories, but differing sequences (even mere
reorderings) are not guaranteed distinct directories, since the
encoding is not injective. -/
theorem derive_dir_eq_iff (e₁ e₂ : List (String × String)) :
    deriveTargetDir e₁ = deriveTargetDir e₂ ↔
      specTargetDirSuffix e₁ = specTargetDirSuffix e₂ := by
  rw [deriveTargetDir_eq, deriveTargetDir_eq, str_append_left_cancel]

/-- Counterexample to C2: for the single override `("LEVEL", "12")`
the derived directory is `target/LEVEL_12`, not the claimed
`target/_LEVEL_12`: the loop appends `name ++ "_" ++ value` with no
underscore before the name. -/
theorem derive_dir_level12_counterexample :
    deriveTargetDir [( "LEVEL", "12")] ≠ "target/_LEVEL_12" ∧
      deriveTargetDir [( "LEVEL", "12")] = "target/LEVEL_12" := by
  constructor
  · decide
  · decide

/-- C2 (amended): the derived output directory is the fixed base
`target/` followed by, for each override in input order, the string
`name ++ "_" ++ value` (no separator before the name); in particular
the single override `("LEVEL", "12")` derives `target/LEVEL_12`. -/
theorem derive_dir_formula :
    (∀ evs, deriveTargetDir evs = "target/" ++ specTargetDirSuffix evs) ∧
      deriveTargetDir [( "LEVEL", "12")] = "target/LEVEL_12" :=
  ⟨deriveTargetDir_eq, by decide⟩

/-- C5: a configuration whose module root lacks a build descriptor, or
whose descriptor carries the workspace-declaration marker, makes
orchestration fail with the corresponding configuration error before
any toolchain invocation: the invocation list is empty. -/
theorem config_errors_prevent_invocation (a : Args) (w : World)
    (h : w.isFile (cargoCfgPath a) = false ∨
      ∃ cfg, w.readFile (cargoCfgPath a) = Except.ok cfg ∧
        strContains cfg workspaceMarker = true) :
    (doBuildWasm a w).2 = [] ∧
      ((doBuildWasm a w).1 = Except.error (noCargoTomlMsg a) ∨
        (doBuildWasm a w).1 = Except.error workspaceMsg) := by
  rcases h with h | ⟨cfg, hr, hc⟩
  · simp [doBuildWasm, h]
  · cases hf : w.isFile (cargoCfgPath a) with
    | false => simp [doBuildWasm, hf]
    | true => simp [doBuildWasm, hf, hr, hc]

/-- Witness for C5: in a world with no files at all the build fails
with the missing-descriptor message and performs no invocation. -/
theorem config_errors_prevent_invocation_witness :
    wNoToml.isFile (cargoCfgPath aDbg) = false ∧
      ((doBuildWasm aDbg wNoToml).2 = [] ∧
        ((doBuildWasm aDbg wNoToml).1 = Except.error (noCargoTomlMsg aDbg) ∨
          (doBuildWasm aDbg wNoToml).1 = Except.error workspaceMsg)) :=
  ⟨rfl, config_errors_prevent_invocation aDbg wNoToml (Or.inl rfl)⟩

/-- C6: after the configuration checks pass and the toolchain run
succeeds, artifact resolution over the glob entries of the expected
pattern returns the single resolved file when there is exactly one,
fails with the no-output message when there is none, and fails with
the multiple-outputs message when there are two or more. -/
theorem artifact_resolution_cardinality (a : Args) (w : World) (cfg stderrTxt : String)
    (ps : List String)
    (h1 : w.isFile (cargoCfgPath a) = true)
    (h2 : w.readFile (cargoCfgPath a) = Except.ok cfg)
    (h3 : strContains cfg workspaceMarker = false)
    (h4 : w.run (mkInvocation a) = Except.ok (true, stderrTxt))
    (h5 : w.glob (artifactGlobPat a) = ps.map Except.ok) :
    (∀ p, ps = [p] → (doBuildWasm a w).1 = Except.ok p) ∧
      (ps = [] → (doBuildWasm a w).1 = Except.error (noOutputMsg (artifactGlobPat a))) ∧
      (∀ p q rest, ps = p :: q :: rest →
        (doBuildWasm a w).1 =
          Except.error (multipleOutputsMsg (artifactGlobPat a) (rootOutputPath a))) := by
  have hred : (doBuildWasm a w).1 =
      resolveArtifact (ps.map Except.ok) (artifactGlobPat a) (rootOutputPath a) := by
    simp [doBuildWasm, h1, h2, h3, h4, h5]
  refine ⟨?_, ?_, ?_⟩
  · intro p hp
    subst hp
    rw [hred]
    rfl
  · intro hp
    subst hp
    rw [hred]
    rfl
  · intro p q rest hp
    subst hp
    rw [hred]
    rfl

/-- Witness for C6: a world depositing exactly one `.wasm` entry makes
the build return that path. -/
theorem artifact_resolution_cardinality_witness :
    wOneArtifact.glob (artifactGlobPat aDbg) =
        [ "m/target/wasm32-unknown-unknown/debug/module.wasm"].map Except.ok ∧
      (doBuildWasm aDbg wOneArtifact).1 =
        Except.ok "m/target/wasm32-unknown-unknown/debug/module.wasm" :=
  ⟨rfl,
    (artifact_resolution_cardinality aDbg wOneArtifact "[package]" ""
          [ "m/target/wasm32-unknown-unknown/debug/module.wasm"]
          rfl rfl (by decide) rfl rfl).1
      _ rfl⟩

/-- C10: the multiple-artifacts guard inspects only a successfully
resolved second glob entry.  If the second entry is an error it is
silently ignored and the first path is returned as the unique
artifact; only a second `Ok` entry triggers the multiple-outputs
error. -/
theorem second_glob_entry_guard (p q e : String) (rest : List (Except String String))
    (pat root : String) :
    resolveArtifact (Except.ok p :: Except.error e :: rest) pat root = Except.ok p ∧
      resolveArtifact (Except.ok p :: Except.ok q :: rest) pat root =
        Except.error (multipleOutputsMsg pat root) :=
  ⟨rfl, rfl⟩

theorem lastChar?_append (s t : List Char) (h : t ≠ []) :
    lastChar? (s ++ t) = lastChar? t := by
  induction s with
  | nil => rfl
  | cons a s ih =>
    show lastChar? (a :: (s ++ t)) = lastChar? t
    cases hs : s ++ t with
    | nil => exact absurd (List.append_eq_nil.mp hs).2 h
    | cons b bs =>
      have hstep : lastChar? (a :: b :: bs) = lastChar? (b :: bs) := rfl
      rw [hstep, ← hs]
      exact ih

theorem endsWithSlash_append (s t : String) (h : endsWithSlash t = true) :
    endsWithSlash (s ++ t) = true := by
  unfold endsWithSlash at h ⊢
  have hd : (s ++ t).data = s.data ++ t.data := rfl
  rw [hd]
  have ht : t.data ≠ [] := by
    intro h0
    rw [h0] at h
    simp [lastChar?] at h
  rw [lastChar?_append s.data t.data ht]
  exact h

theorem endsWithSlash_pathJoin (base t : String) (h : endsWithSlash t = true) :
    endsWithSlash (pathJoin base t) = true := by
  unfold pathJoin
  split
  · exact endsWithSlash_append base t h
  · exact endsWithSlash_append (base ++ "/") t h

theorem pathJoin_of_slash (base t : String) (h : endsWithSlash base = true) :
    pathJoin base t = base ++ t := by
  unfold pathJoin
  rw [if_pos h]

theorem endsWithSlash_rootOutputPath (a : Args) :
    endsWithSlash (rootOutputPath a) = true :=
  endsWithSlash_pathJoin _ _ (by decide)

theorem release_ne_deriveTargetDir (evs : List (String × String)) :
    ( "--release" : String) ≠ deriveTargetDir evs := by
  intro h
  rw [deriveTargetDir_eq] at h
  have h' : ( "--release" : String).data = ("target/" ++ specTargetDirSuffix evs).data :=
    congrArg String.data h
  have h2 : ("target/" ++ specTargetDirSuffix evs).data =
      't' :: 'a' :: 'r' :: 'g' :: 'e' :: 't' :: '/' :: (specTargetDirSuffix evs).data := rfl
  have h3 : ( "--release" : String).data =
      '-' :: '-' :: 'r' :: 'e' :: 'l' :: 'e' :: 'a' :: 's' :: 'e' :: [] := rfl
  rw [h2, h3] at h'
  injection h' with hc _
  exact absurd hc (by decide)

/-- C7: every run performs either no toolchain invocation or exactly
the configuration's invocation, whose argument list carries
`--release` precisely when the release flag is set; and the artifact
glob pattern searched afterwards lies under the `release/`
subdirectory of the output root when the flag is set and under
`debug/` otherwise. -/
theorem release_flag_and_search_dir (a : Args) (w : World) :
    ((doBuildWasm a w).2 = [] ∨ (doBuildWasm a w).2 = [mkInvocation a]) ∧
      ( "--release" ∈ (mkInvocation a).cmdArgs ↔ a.release = true) ∧
      artifactGlobPat a =
        rootOutputPath a ++ (if a.release then "release/*.wasm" else "debug/*.wasm") := by
  refine ⟨?_, ?_, ?_⟩
  · unfold doBuildWasm
    split
    · exact Or.inl rfl
    · split
      · exact Or.inl rfl
      · split
        · exact Or.inl rfl
        · split
          · exact Or.inr rfl
          · split
            · exact Or.inr rfl
            · exact Or.inr rfl
  · show "--release" ∈ buildCmdArgs a ↔ a.release = true
    unfold buildCmdArgs
    cases hrel : a.release with
    | false =>
      show "--release" ∈
          ["+nightly", "build", "--target", "wasm32-unknown-unknown", "-Z",
            "build-std=panic_abort,std", "--target-dir", deriveTargetDir a.env_vars] ++ [] ↔
          false = true
      rw [List.append_nil]
      constructor
      · intro h
        exfalso
        have hne := release_ne_deriveTargetDir a.env_vars
        simp only [List.mem_cons, List.not_mem_nil, or_false] at h
        rcases h with h | h | h | h | h | h | h | h <;>
          first
            | exact absurd h (by decide)
            | exact hne h
      · intro h
        exact Bool.noConfusion h
    | true =>
      simp
  · unfold artifactGlobPat
    have hroot := endsWithSlash_rootOutputPath a
    cases hrel : a.release with
    | false =>
      show pathJoin (pathJoin (rootOutputPath a) "debug/") "*.wasm" =
        rootOutputPath a ++ "debug/*.wasm"
      rw [pathJoin_of_slash _ _ hroot,
        pathJoin_of_slash _ _ (endsWithSlash_append (rootOutputPath a) "debug/" (by decide)),
        str_append_assoc]
      rfl
    | true =>
      show pathJoin (pathJoin (rootOutputPath a) "release/") "*.wasm" =
        rootOutputPath a ++ "release/*.wasm"
      rw [pathJoin_of_slash _ _ hroot,
        pathJoin_of_slash _ _ (endsWithSlash_append (rootOutputPath a) "release/" (by decide)),
        str_append_assoc]
      rfl

/-- C8, failing-input evaluation: on a filesystem holding a valid
module at root `m` with a source file `m/src/lib.rs` and a successful
toolchain run depositing one artifact, the orchestration succeeds but
returns an empty watch list: the source passes the module root itself
(a pattern with no wildcard, matching only the root directory, which
the file filter then drops) to `all_module_files` instead of an
all-files pattern. -/
theorem watch_list_empty_despite_source_files :
    build_wasm aDbg wFs =
        Except.ok ( "m/target/wasm32-unknown-unknown/debug/module.wasm", []) ∧
      wFs.isFile "m/src/lib.rs" = true ∧
      wFs.glob "m" = [Except.ok "m"] :=
  ⟨rfl, rfl, rfl⟩
